import Mathlib

/-!
Shallow embedding of the raw2ready frontend workflow core
(src/frontend/src/components/FormPage.jsx, src/frontend/src/services/api.js,
src/unnamed/part_002 = the authoritative PresentationPage variant).

JavaScript strings are Lean `String`s.  JavaScript numbers flowing through the
validators are modelled exactly: a finite value is a scaled integer `m / 10^k`
(`DecValue`), and NaN is `Option.none`.  Every comparison the code performs is
against the integer bounds 3, 5, 6, 10 and 15, and is computed by cross
multiplication in `Int`, so the model is exact for all decimal literals;
IEEE-754 rounding is abstracted away (it only diverges for literals agreeing
with a bound to 17+ significant digits, which no claim touches).  The platform
builtins `String.prototype.trim`, `Number`, `parseInt`, `parseFloat`,
`JSON.parse` and `JSON.stringify` are external collaborators; they are
modelled at the fidelity the code exercises (decimal numeric literals and the
`Infinity` forms; the exotic `Number` forms `0x..`, `0o..`, `0b..` are not
modelled -- on those inputs the real code and the model produce the same
validation verdicts because `parseInt(s,10)` and `parseFloat` read the leading
`0`, which is out of range on every bound used here).
-/

namespace Raw2Ready

/-- ASCII whitespace recognised by the model of the JS trim / numeric parsers.
(JS also strips some exotic Unicode space code points; no claim depends on
them.) -/
def jsWhitespace (c : Char) : Bool :=
  c = ' ' ∨ c = '\t' ∨ c = '\n' ∨ c = '\r' ∨ c = '\x0b' ∨ c = '\x0c'

/-- Drop leading JS whitespace from a character list. -/
def dropLeadingWs (cs : List Char) : List Char :=
  cs.dropWhile jsWhitespace

/-- Model of `String.prototype.trim`. -/
def jsTrim (s : String) : String :=
  String.mk ((dropLeadingWs ((dropLeadingWs s.toList.reverse)).reverse))

/-- `!s.trim()` -- the blank test the validators use. -/
def jsBlank (s : String) : Bool :=
  jsTrim s = ""

/-- Longest digit prefix of a character list, and the rest. -/
def takeDigits : List Char → List Char × List Char
  | [] => ([], [])
  | c :: cs =>
    if c.isDigit then
      match takeDigits cs with
      | (ds, rest) => (c :: ds, rest)
    else ([], c :: cs)

/-- Value of a digit character. -/
def digitVal (c : Char) : Nat := c.toNat - '0'.toNat

/-- Numeric value of a digit list (most significant first). -/
def natOfDigits (ds : List Char) : Nat :=
  ds.foldl (fun n c => 10 * n + digitVal c) 0

/-- 10 ^ n as an integer. -/
def ipow10 (n : Nat) : Int := (10 : Int) ^ n

/-- An exact finite JavaScript number: the value `m / 10 ^ k`.  The
representation is not canonical; all observations below go through the
semantic comparison functions. -/
structure DecValue where
  m : Int
  k : Nat
deriving DecidableEq, Repr

/-- Negation of a decimal value. -/
def DecValue.neg (v : DecValue) : DecValue := ⟨-v.m, v.k⟩

/-- Scale a decimal value by `10 ^ e` (the exponent part of a literal). -/
def DecValue.scale (v : DecValue) (e : Int) : DecValue :=
  if 0 ≤ e then ⟨v.m * ipow10 e.toNat, v.k⟩ else ⟨v.m, v.k + (-e).toNat⟩

/-- `v < b` for an integer bound `b`. -/
def DecValue.ltInt (v : DecValue) (b : Int) : Bool :=
  decide (v.m < b * ipow10 v.k)

/-- `v > b` for an integer bound `b`. -/
def DecValue.gtInt (v : DecValue) (b : Int) : Bool :=
  decide (b * ipow10 v.k < v.m)

/-- `b ≤ v` for an integer bound `b`. -/
def DecValue.geInt (v : DecValue) (b : Int) : Bool :=
  decide (b * ipow10 v.k ≤ v.m)

/-- `v ≤ b` for an integer bound `b`. -/
def DecValue.leInt (v : DecValue) (b : Int) : Bool :=
  decide (v.m ≤ b * ipow10 v.k)

/-- Does the value denote a mathematical integer? -/
def DecValue.isInt (v : DecValue) : Bool :=
  decide (v.m % ipow10 v.k = 0)

/-- Parse an unsigned decimal mantissa prefix: `digits`, `digits.digits?`, or
`.digits`.  Returns its exact value and the unconsumed rest. -/
def parseMantissa (cs : List Char) : Option (DecValue × List Char) :=
  match takeDigits cs with
  | ([], rest) =>
    match rest with
    | '.' :: r2 =>
      match takeDigits r2 with
      | ([], _) => none
      | (fs, r3) => some (⟨(natOfDigits fs : Int), fs.length⟩, r3)
    | _ => none
  | (ds, rest) =>
    match rest with
    | '.' :: r2 =>
      match takeDigits r2 with
      | (fs, r3) =>
        some (⟨(natOfDigits ds : Int) * ipow10 fs.length + (natOfDigits fs : Int),
               fs.length⟩, r3)
    | _ => some (⟨(natOfDigits ds : Int), 0⟩, rest)

/-- Parse an exponent part `e|E [+|-] digits` if present and well formed. -/
def parseExp (cs : List Char) : Option (Int × List Char) :=
  match cs with
  | c :: rest =>
    if c = 'e' ∨ c = 'E' then
      match rest with
      | '+' :: r2 =>
        match takeDigits r2 with
        | ([], _) => none
        | (ds, r3) => some ((natOfDigits ds : Int), r3)
      | '-' :: r2 =>
        match takeDigits r2 with
        | ([], _) => none
        | (ds, r3) => some (-(natOfDigits ds : Int), r3)
      | r2 =>
        match takeDigits r2 with
        | ([], _) => none
        | (ds, r3) => some ((natOfDigits ds : Int), r3)
    else none
  | [] => none

/-- Mantissa followed by an optional exponent (longest match). -/
def parseUnsignedNum (cs : List Char) : Option (DecValue × List Char) :=
  match parseMantissa cs with
  | none => none
  | some (v, rest) =>
    match parseExp rest with
    | some (e, rest2) => some (v.scale e, rest2)
    | none => some (v, rest)

/-- Signed decimal literal prefix. -/
def parseSignedNum (cs : List Char) : Option (DecValue × List Char) :=
  match cs with
  | '+' :: r => parseUnsignedNum r
  | '-' :: r =>
    match parseUnsignedNum r with
    | some (v, rest) => some (v.neg, rest)
    | none => none
  | r => parseUnsignedNum r

/-- A JavaScript number that is not NaN. -/
inductive JsNum where
  | finite (v : DecValue)
  | inf
  | negInf
deriving DecidableEq, Repr

/-- Does `cs` start with `Infinity` after an optional sign?  Returns the
signed infinity and the unconsumed rest if so. -/
def infinityPrefixRest (cs : List Char) : Option (JsNum × List Char) :=
  let pat : List Char := ['I', 'n', 'f', 'i', 'n', 'i', 't', 'y']
  match cs with
  | '+' :: r => if pat.isPrefixOf r then some (.inf, r.drop 8) else none
  | '-' :: r => if pat.isPrefixOf r then some (.negInf, r.drop 8) else none
  | r => if pat.isPrefixOf r then some (.inf, r.drop 8) else none

/-- Longest numeric-literal prefix (signed infinity or signed decimal
literal) and the unconsumed rest. -/
def parseNumPrefix (cs : List Char) : Option (JsNum × List Char) :=
  match infinityPrefixRest cs with
  | some (v, rest) => some (v, rest)
  | none =>
    match parseSignedNum cs with
    | some (v, rest) => some (.finite v, rest)
    | none => none

/-- Model of the `Number(string)` conversion; `none` is NaN.  The empty /
all-whitespace string converts to 0; otherwise the whole string, surrounding
whitespace aside, must be one numeric literal. -/
def jsNumberOfString (s : String) : Option JsNum :=
  let cs := dropLeadingWs s.toList
  if cs.isEmpty then some (.finite ⟨0, 0⟩)
  else
    match parseNumPrefix cs with
    | some (v, rest) => if rest.all jsWhitespace then some v else none
    | none => none

/-- Model of the global `isNaN(string)` test the validators use. -/
def jsIsNaN (s : String) : Bool :=
  (jsNumberOfString s).isNone

/-- Model of `parseFloat(string)`: skip leading whitespace, read the longest
numeric-literal prefix, ignore the rest; `none` is NaN. -/
def jsParseFloat (s : String) : Option JsNum :=
  (parseNumPrefix (dropLeadingWs s.toList)).map Prod.fst

/-- Model of `parseInt(string, 10)`: skip leading whitespace, optional sign,
longest digit prefix, ignore the rest; `none` is NaN. -/
def jsParseInt (s : String) : Option Int :=
  let cs := dropLeadingWs s.toList
  match cs with
  | '+' :: r =>
    match takeDigits r with
    | ([], _) => none
    | (ds, _) => some (natOfDigits ds : Int)
  | '-' :: r =>
    match takeDigits r with
    | ([], _) => none
    | (ds, _) => some (-(natOfDigits ds : Int))
  | r =>
    match takeDigits r with
    | ([], _) => none
    | (ds, _) => some (natOfDigits ds : Int)

/-- `n < b` on a possibly-NaN JS number (every comparison with NaN is false). -/
def jsNumLt (o : Option JsNum) (b : Int) : Bool :=
  match o with
  | some (.finite v) => v.ltInt b
  | some .inf => false
  | some .negInf => true
  | none => false

/-- `n > b` on a possibly-NaN JS number. -/
def jsNumGt (o : Option JsNum) (b : Int) : Bool :=
  match o with
  | some (.finite v) => v.gtInt b
  | some .inf => true
  | some .negInf => false
  | none => false

/-- `n < b` on a possibly-NaN `parseInt` result. -/
def jsIntLt (o : Option Int) (b : Int) : Bool :=
  match o with
  | some n => decide (n < b)
  | none => false

/-- `n > b` on a possibly-NaN `parseInt` result. -/
def jsIntGt (o : Option Int) (b : Int) : Bool :=
  match o with
  | some n => decide (b < n)
  | none => false

/-- `s || d` for a JS string with a string default. -/
def jsOrDefault (s d : String) : String :=
  if s = "" then d else s

/-- `s || null` for a JS string: empty becomes the explicit absent value. -/
def jsOrNull (s : String) : Option String :=
  if s = "" then none else some s

/-! ## Input Form Stage (src/frontend/src/components/FormPage.jsx, first,
authoritative document of the file; the copy after the corpus separator is a
historical variant) -/

/-- Modelled from the spec: the known-country enumeration.  The static data
table `src/frontend/src/utils/countries.js` that `FormPage.jsx` imports is not
part of the corpus; the spec says only that the country must be "a member of
the known-country set", a fixed list of country names, and its test scenario
uses "France".  Every theorem below holds for an arbitrary such list; a
representative sample is used so the definitions stay executable. -/
def countries : List String :=
  ["Australia", "Brazil", "Canada", "France", "Germany", "India", "Japan",
   "Netherlands", "Spain", "United Kingdom", "United States"]

/-- The form state held by `FormPage` (all fields are controlled string
inputs; there is no file-attachment field in this authoritative variant). -/
structure FormData where
  businessName : String
  city : String
  country : String
  targetAudience : String
  budget : String
  businessType : String
  rawIdea : String
  problem : String
  model : String
  timeCommitment : String
  outputTone : String
  stageOfIdea : String
  timeHorizon : String
deriving DecidableEq, Repr

/-- The default form state returned by `loadSavedFormData` when nothing valid
is persisted. -/
def defaultFormData : FormData :=
  { businessName := "", city := "", country := "", targetAudience := ""
    budget := "", businessType := "", rawIdea := "", problem := ""
    model := "chatgpt-latest", timeCommitment := "", outputTone := ""
    stageOfIdea := "", timeHorizon := "" }

/-- The `errors` object produced by `validateForm`: one key per checked rule,
present exactly when the rule failed. -/
structure FormErrors where
  country : Option String
  city : Option String
  rawIdea : Option String
  timeCommitment : Option String
  terms : Option String
deriving DecidableEq, Repr

/-- `Object.keys(newErrors).length === 0`: keys are only ever assigned on
failure, so the object is empty exactly when every field is error free. -/
def FormErrors.isEmpty (e : FormErrors) : Bool :=
  e.country.isNone && e.city.isNone && e.rawIdea.isNone &&
    e.timeCommitment.isNone && e.terms.isNone

/-- When an error slot holds a message, that message is nonempty. -/
def msgNonempty (o : Option String) : Bool :=
  match o with
  | some m => m ≠ ""
  | none => true

/-- `validateForm` from `FormPage.jsx` (lines 74-90).  The country must be
nonblank and (untrimmed, as in `countries.includes(formData.country)`) a
member of the country list; city and raw idea must be nonblank; time
commitment must be nonempty; the terms box must be checked. -/
def validateForm (fd : FormData) (termsAccepted : Bool) : FormErrors :=
  { country :=
      if jsBlank fd.country then some "Country is required"
      else if countries.contains fd.country then none
      else some "Please select a country from the dropdown"
    city := if jsBlank fd.city then some "City is required" else none
    rawIdea := if jsBlank fd.rawIdea then some "Raw idea is required" else none
    timeCommitment :=
      if fd.timeCommitment = "" then some "Time commitment is required" else none
    terms :=
      if termsAccepted then none
      else some "You must accept the terms and conditions" }

/-- `getModelSelection` from `FormPage.jsx`. -/
def getModelSelection (fd : FormData) : String :=
  if fd.model = "gemini" then "google-gemini-flash" else "chatgpt-latest"

/-- The JSON body posted to `POST /api/analyze` (snake_case external
contract). -/
structure AnalyzeRequest where
  business_name : String
  location_city : String
  country : String
  target_audience : Option String
  budget : Option String
  business_type : Option String
  raw_idea : String
  problem : Option String
  file_content : Option String
  photos_description : Option String
  model_selection : String
  time_commitment : Option String
  output_tone : Option String
  language : String
  stage_of_idea : Option String
  time_horizon : Option String
deriving DecidableEq, Repr

/-- The `requestBody` construction inside `handleSubmit` (FormPage.jsx lines
105-122). -/
def buildAnalyzeRequest (fd : FormData) : AnalyzeRequest :=
  { business_name := jsOrDefault (jsTrim fd.businessName) "My Business"
    location_city := jsOrDefault (jsTrim fd.city) ""
    country := jsTrim fd.country
    target_audience := jsOrNull (jsTrim fd.targetAudience)
    budget := jsOrNull (jsTrim fd.budget)
    business_type := jsOrNull fd.businessType
    raw_idea := jsTrim fd.rawIdea
    problem := jsOrNull (jsTrim fd.problem)
    file_content := none
    photos_description := none
    model_selection := getModelSelection fd
    time_commitment := jsOrNull fd.timeCommitment
    output_tone := jsOrNull fd.outputTone
    language := "en"
    stage_of_idea := jsOrNull fd.stageOfIdea
    time_horizon := jsOrNull fd.timeHorizon }

/-- Whether `handleSubmit` reaches the network: the request is sent exactly
when `validateForm` found no errors. -/
inductive SubmitRequestAction where
  | noRequest (errors : FormErrors)
  | sendRequest (body : AnalyzeRequest)
deriving DecidableEq, Repr

/-- The pre-network half of `handleSubmit`: validate, and on success build the
`/api/analyze` body. -/
def submitRequestAction (fd : FormData) (termsAccepted : Bool) :
    SubmitRequestAction :=
  let e := validateForm fd termsAccepted
  if e.isEmpty then .sendRequest (buildAnalyzeRequest fd) else .noRequest e

/-- The successful analysis payload as read by `handleSubmit`: the only field
it inspects is `suggested_business_name`; `disclaimer` and the rest of the
`AnalysisResult` shape are passed through untouched to the results stage (the
record value itself is carried forward, so pass-through is by construction). -/
structure AnalysisData where
  suggested_business_name : Option String
  disclaimer : Option String
deriving DecidableEq, Repr

/-- The `BusinessContext` record `handleSubmit` constructs (lines 140-149). -/
structure BusinessContext where
  business_name : String
  raw_idea : String
  problem : Option String
  target_audience : Option String
  location_city : Option String
  country : Option String
  budget : Option String
  business_type : Option String
deriving DecidableEq, Repr

/-- `analysisData.suggested_business_name?.trim() || formData.businessName.trim()
|| 'My Business'` (line 138): the optional chain yields `undefined` (falsy)
when the field is absent, and trimming an empty suggestion is also falsy. -/
def businessNameForPresentation (a : AnalysisData) (fd : FormData) : String :=
  match a.suggested_business_name with
  | some s =>
    if jsTrim s = "" then jsOrDefault (jsTrim fd.businessName) "My Business"
    else jsTrim s
  | none => jsOrDefault (jsTrim fd.businessName) "My Business"

/-- The `businessContext` object built on success. -/
def buildBusinessContext (fd : FormData) (a : AnalysisData) : BusinessContext :=
  { business_name := businessNameForPresentation a fd
    raw_idea := jsTrim fd.rawIdea
    problem := jsOrNull (jsTrim fd.problem)
    target_audience := jsOrNull (jsTrim fd.targetAudience)
    location_city := jsOrNull (jsTrim fd.city)
    country := jsOrNull (jsTrim fd.country)
    budget := jsOrNull (jsTrim fd.budget)
    business_type := jsOrNull fd.businessType }

/-- The `detail` field of a non-2xx `/api/analyze` response body, as JS sees
it.  `absent` also covers a body `response.json()` failed to parse, because
`.catch(() => ({}))` turns that into an object with no `detail`.  A list
models an array of sub-errors, each item standing for the `String()` image of
the corresponding array element. -/
inductive JsDetail where
  | absent
  | str (s : String)
  | list (items : List String)
deriving DecidableEq, Repr

/-- JS truthiness of a `detail` value (arrays are always truthy; the empty
string is falsy; a missing field is `undefined`, falsy). -/
def JsDetail.truthy : JsDetail → Bool
  | .absent => false
  | .str s => s ≠ ""
  | .list _ => true

/-- `String(detail)`, the message a thrown `new Error(detail)` carries: arrays
stringify as their comma-joined elements. -/
def JsDetail.toJsString : JsDetail → String
  | .absent => "undefined"
  | .str s => s
  | .list items => String.intercalate "," items

/-- `new Error(errData.detail || ...)` (line 132): the message of the error
thrown for a non-OK response. -/
def httpErrorMessage (status : Nat) (d : JsDetail) : String :=
  if d.truthy then d.toJsString
  else "Research failed (" ++ toString status ++ ")"

/-- The fixed message for a network-level failure (line 160). -/
def serverUnreachableMsg : String :=
  "Could not reach the server. Make sure the backend is running (e.g. uvicorn on port 8000) and you are using the dev server (npm run dev)."

/-- The `catch` clause of `handleSubmit` (lines 157-162): an error whose name
is `TypeError` or whose message is exactly `Failed to fetch` is classified as
a network failure; otherwise the message is shown, with a generic retry text
when it is empty. -/
def catchMessage (errMessage : String) (errNameIsTypeError : Bool) : String :=
  if errMessage = "Failed to fetch" || errNameIsTypeError then
    serverUnreachableMsg
  else jsOrDefault errMessage "Research failed. Please try again."

/-- Outcome of the `fetch` call as `handleSubmit` observes it. -/
inductive FetchOutcome where
  | networkFailure
  | httpError (status : Nat) (detail : JsDetail)
  | success (data : AnalysisData)
deriving DecidableEq, Repr

/-- What `handleSubmit` does after the validation gate. -/
inductive SubmitResult where
  | invalid (errors : FormErrors)
  | errorShown (msg : String)
  | navigated (data : AnalysisData) (ctx : BusinessContext)
deriving DecidableEq, Repr

/-- `handleSubmit` (FormPage.jsx lines 97-166) as a function of the form
state, the terms flag and the fetch outcome.  A network rejection raises a
`TypeError`; the error thrown for a non-OK response has name `Error`, so its
classification only depends on its message. -/
def handleSubmit (fd : FormData) (termsAccepted : Bool)
    (outcome : FetchOutcome) : SubmitResult :=
  let e := validateForm fd termsAccepted
  if e.isEmpty then
    match outcome with
    | .networkFailure => .errorShown (catchMessage "Failed to fetch" true)
    | .httpError status d => .errorShown (catchMessage (httpErrorMessage status d) false)
    | .success a => .navigated a (buildBusinessContext fd a)
  else .invalid e

/-! ## Persistence Adapter (browser localStorage plus the JSON builtins)

The application only ever writes `JSON.stringify` of one of its own record
values under each JSON-carrying key, and `JSON.parse` of such a blob recovers
exactly that value (a property of the platform builtins, which are external
collaborators).  A stored blob is therefore either the well-formed
serialization of an app value or an arbitrary corrupt string that
`JSON.parse` throws on. -/

/-- A persisted JSON blob for values of type `α`. -/
inductive JsonBlob (α : Type) where
  | wellFormed (value : α)
  | corrupt (raw : String)
deriving DecidableEq, Repr

/-- `JSON.stringify` at the granularity the code uses it. -/
def jsonStringify {α : Type} (a : α) : JsonBlob α :=
  .wellFormed a

/-- `JSON.parse`: throws (models the caught exception as `Except.error`) on a
corrupt blob, recovers the serialized value otherwise. -/
def jsonParse {α : Type} : JsonBlob α → Except String α
  | .wellFormed a => .ok a
  | .corrupt raw => .error ("Unexpected token in JSON: " ++ raw)

/-! ## Presentation/Video Generation Stage (src/unnamed/part_002, first,
authoritative document; the copy after the corpus separator is a historical
variant without persistence) -/

/-- One slide of a generated deck. -/
structure Slide where
  slide_number : Nat
  title : String
  subtitle : Option String
  content : List String
  speaker_notes : Option String
  duration_seconds : Option Int
deriving DecidableEq, Repr

/-- A generated presentation deck as returned by the backend. -/
structure Presentation where
  presentation_title : String
  generated_tagline : Option String
  total_duration_minutes : Int
  slides : List Slide
deriving DecidableEq, Repr

/-- The generated-video artifact (`{video_url}`). -/
structure GeneratedVideo where
  video_url : String
deriving DecidableEq, Repr

/-- The slide-deck configuration form (`pptFormData`). -/
structure PptFormData where
  numberOfSlides : String
  timeRequired : String
deriving DecidableEq, Repr

/-- Defaults returned by `loadSavedPptData` when nothing valid is persisted. -/
def defaultPptFormData : PptFormData :=
  { numberOfSlides := "10", timeRequired := "5" }

/-- The video configuration form (`videoFormData`). -/
structure VideoFormData where
  timeRequired : String
  prompt : String
deriving DecidableEq, Repr

/-- Defaults returned by `loadSavedVideoData`. -/
def defaultVideoFormData : VideoFormData :=
  { timeRequired := "", prompt := "" }

/-- The localStorage keys the application uses (all under the `raw2ready_`
prefix), typed by what the code stores under each. -/
structure Storage where
  formData : Option (JsonBlob FormData)
  termsAccepted : Option String
  pptFormData : Option (JsonBlob PptFormData)
  presentation : Option (JsonBlob Presentation)
  currentSlide : Option String
  videoFormData : Option (JsonBlob VideoFormData)
  generatedVideo : Option (JsonBlob GeneratedVideo)
deriving DecidableEq, Repr

/-- An entirely empty persistence store. -/
def emptyStorage : Storage :=
  { formData := none, termsAccepted := none, pptFormData := none
    presentation := none, currentSlide := none, videoFormData := none
    generatedVideo := none }

/-- `loadSavedFormData` (FormPage.jsx lines 14-39): absent key or a parse
exception both fall through to the built-in defaults. -/
def loadSavedFormData (st : Storage) : FormData :=
  match st.formData with
  | some blob =>
    match jsonParse blob with
    | .ok fd => fd
    | .error _ => defaultFormData
  | none => defaultFormData

/-- `loadSavedPresentation` (part_002 lines 33-43): `null` on absence or a
parse exception. -/
def loadSavedPresentation (st : Storage) : Option Presentation :=
  match st.presentation with
  | some blob =>
    match jsonParse blob with
    | .ok p => some p
    | .error _ => none
  | none => none

/-- `loadSavedVideo` (part_002 lines 76-86): `null` on absence or a parse
exception. -/
def loadSavedVideo (st : Storage) : Option GeneratedVideo :=
  match st.generatedVideo with
  | some blob =>
    match jsonParse blob with
    | .ok v => some v
    | .error _ => none
  | none => none

/-- The editable fields of `FormData`, one per named controlled input. -/
inductive FormField where
  | businessName | city | country | targetAudience | budget | businessType
  | rawIdea | problem | model | timeCommitment | outputTone | stageOfIdea
  | timeHorizon
deriving DecidableEq, Repr

/-- `{ ...prev, [name]: value }` for the form state. -/
def setField (fd : FormData) (f : FormField) (v : String) : FormData :=
  match f with
  | .businessName => { fd with businessName := v }
  | .city => { fd with city := v }
  | .country => { fd with country := v }
  | .targetAudience => { fd with targetAudience := v }
  | .budget => { fd with budget := v }
  | .businessType => { fd with businessType := v }
  | .rawIdea => { fd with rawIdea := v }
  | .problem => { fd with problem := v }
  | .model => { fd with model := v }
  | .timeCommitment => { fd with timeCommitment := v }
  | .outputTone => { fd with outputTone := v }
  | .stageOfIdea => { fd with stageOfIdea := v }
  | .timeHorizon => { fd with timeHorizon := v }

/-- `handleChange` (FormPage.jsx lines 54-64): update the field and
immediately persist the whole updated snapshot under
`raw2ready_formData`. -/
def handleChange (fd : FormData) (st : Storage) (f : FormField) (v : String) :
    FormData × Storage :=
  let updated := setField fd f v
  (updated, { st with formData := some (jsonStringify updated) })

/-- The `errors` object of the slide-deck configuration form. -/
structure PptErrors where
  numberOfSlides : Option String
  timeRequired : Option String
deriving DecidableEq, Repr

/-- Both slide-deck fields error free. -/
def PptErrors.isEmpty (e : PptErrors) : Bool :=
  e.numberOfSlides.isNone && e.timeRequired.isNone

/-- `validatePptForm` (part_002 lines 169-179): slides blank, non-numeric, or
`parseInt` outside `[5,15]`; duration blank, non-numeric, or `parseFloat`
outside `[3,15]`.  NaN comparisons are false, so a `parseInt`/`parseFloat`
NaN only fails through the `isNaN` guard. -/
def validatePptForm (d : PptFormData) : PptErrors :=
  { numberOfSlides :=
      if jsBlank d.numberOfSlides || jsIsNaN d.numberOfSlides ||
          jsIntLt (jsParseInt d.numberOfSlides) 5 ||
          jsIntGt (jsParseInt d.numberOfSlides) 15 then
        some "Please enter a number between 5 and 15"
      else none
    timeRequired :=
      if jsBlank d.timeRequired || jsIsNaN d.timeRequired ||
          jsNumLt (jsParseFloat d.timeRequired) 3 ||
          jsNumGt (jsParseFloat d.timeRequired) 15 then
        some "Please enter a time between 3 and 15 minutes"
      else none }

/-- The enriched business context the presentation stage receives via the
navigation payload; `location.state?.businessContext || {}` makes every field
optional. -/
structure EnrichedContext where
  business_name : Option String
  raw_idea : Option String
  tagline : Option String
  problem : Option String
  target_audience : Option String
  location_city : Option String
  country : Option String
  budget : Option String
  business_type : Option String
  competing_players : Option (List String)
  market_cap_or_target_revenue : Option String
  undiscovered_addons : Option (List String)
deriving DecidableEq, Repr

/-- The `{}` context a deep-linked presentation stage starts from. -/
def emptyContext : EnrichedContext :=
  { business_name := none, raw_idea := none, tagline := none, problem := none
    target_audience := none, location_city := none, country := none
    budget := none, business_type := none, competing_players := none
    market_cap_or_target_revenue := none, undiscovered_addons := none }

/-- `ctx.field || null` for an optional string field (an absent field is
`undefined`, falsy; an empty string is falsy too). -/
def ctxOrNull (o : Option String) : Option String :=
  match o with
  | some s => jsOrNull s
  | none => none

/-- `ctx.field || 'default'` for an optional string field. -/
def ctxOrDefault (o : Option String) (d : String) : String :=
  match o with
  | some s => jsOrDefault s d
  | none => d

/-- `ctx?.field?.trim() || null` as used by the video request body. -/
def ctxTrimOrNull (o : Option String) : Option String :=
  match o with
  | some s => jsOrNull (jsTrim s)
  | none => none

/-- The JSON body posted to `POST /api/presentation/generate` (part_002 lines
188-203).  `num_slides` and `duration_minutes` are the `parseInt` images of
the two inputs (`none` stands for the NaN that `JSON.stringify` would emit as
`null`). -/
structure GeneratePresentationRequest where
  business_name : String
  raw_idea : String
  tagline : Option String
  problem : Option String
  target_audience : Option String
  location_city : Option String
  country : Option String
  budget : Option String
  business_type : Option String
  competing_players : Option (List String)
  market_cap_or_target_revenue : Option String
  undiscovered_addons : Option (List String)
  num_slides : Option Int
  duration_minutes : Option Int
deriving DecidableEq, Repr

/-- Whether `handleCreatePresentation` reaches the network. -/
inductive PptSubmitAction where
  | noRequest (errors : PptErrors)
  | sendRequest (body : GeneratePresentationRequest)
deriving DecidableEq, Repr

/-- Did the handler issue a network call? -/
def PptSubmitAction.isRequest : PptSubmitAction → Bool
  | .noRequest _ => false
  | .sendRequest _ => true

/-- The pre-network half of `handleCreatePresentation` (part_002 lines
181-208): validate, and only on success build and send the request body. -/
def handleCreatePresentation (ctx : EnrichedContext) (d : PptFormData) :
    PptSubmitAction :=
  let e := validatePptForm d
  if e.isEmpty then
    .sendRequest
      { business_name := ctxOrDefault ctx.business_name "My Business"
        raw_idea := ctxOrDefault ctx.raw_idea "A business idea"
        tagline := ctxOrNull ctx.tagline
        problem := ctxOrNull ctx.problem
        target_audience := ctxOrNull ctx.target_audience
        location_city := ctxOrNull ctx.location_city
        country := ctxOrNull ctx.country
        budget := ctxOrNull ctx.budget
        business_type := ctxOrNull ctx.business_type
        competing_players := ctx.competing_players
        market_cap_or_target_revenue := ctx.market_cap_or_target_revenue
        undiscovered_addons := ctx.undiscovered_addons
        num_slides := jsParseInt d.numberOfSlides
        duration_minutes := jsParseInt d.timeRequired }
  else .noRequest e

/-- The `errors` object of the video form. -/
structure VideoErrors where
  timeRequired : Option String
  prompt : Option String
deriving DecidableEq, Repr

/-- Both video fields error free. -/
def VideoErrors.isEmpty (e : VideoErrors) : Bool :=
  e.timeRequired.isNone && e.prompt.isNone

/-- `validateVideoForm` (part_002 lines 320-332): duration mandatory, then
numeric with `parseFloat` in `[6,10]`; prompt must be nonblank. -/
def validateVideoForm (v : VideoFormData) : VideoErrors :=
  { timeRequired :=
      if jsBlank v.timeRequired then some "Time required is mandatory"
      else if jsIsNaN v.timeRequired ||
          jsNumLt (jsParseFloat v.timeRequired) 6 ||
          jsNumGt (jsParseFloat v.timeRequired) 10 then
        some "Please enter a valid time in seconds (6–10)"
      else none
    prompt :=
      if jsBlank v.prompt then some "Video prompt is required" else none }

/-- The JSON body posted to `POST /api/generate-video` (part_002 lines
344-353); `time` is `parseFloat(timeRequired) / 60`, kept as the parsed
seconds value paired with the divisor so no claim needs rational division. -/
structure GenerateVideoRequest where
  timeSeconds : Option JsNum
  prompt : String
  business_name : Option String
  raw_idea : Option String
  problem : Option String
  target_audience : Option String
  location_city : Option String
  country : Option String
deriving DecidableEq, Repr

/-- Whether `handleGenerateVideo` reaches the network. -/
inductive VideoSubmitAction where
  | noRequest (errors : VideoErrors)
  | sendRequest (body : GenerateVideoRequest)
deriving DecidableEq, Repr

/-- Did the handler issue a network call? -/
def VideoSubmitAction.isRequest : VideoSubmitAction → Bool
  | .noRequest _ => false
  | .sendRequest _ => true

/-- The pre-network half of `handleGenerateVideo` (part_002 lines 334-354). -/
def handleGenerateVideo (ctx : EnrichedContext) (v : VideoFormData) :
    VideoSubmitAction :=
  let e := validateVideoForm v
  if e.isEmpty then
    .sendRequest
      { timeSeconds := jsParseFloat v.timeRequired
        prompt := jsTrim v.prompt
        business_name := ctxTrimOrNull ctx.business_name
        raw_idea := ctxTrimOrNull ctx.raw_idea
        problem := ctxTrimOrNull ctx.problem
        target_audience := ctxTrimOrNull ctx.target_audience
        location_city := ctxTrimOrNull ctx.location_city
        country := ctxTrimOrNull ctx.country }
  else .noRequest e

/-! ## Slide navigation state machine (part_002) -/

/-- The slide-deck related component state of the presentation page. -/
structure PptPageState where
  presentation : Option Presentation
  currentSlide : Nat
  editPrompt : String
  storage : Storage
deriving DecidableEq, Repr

/-- `goToSlide` (part_002 lines 394-398): set the index (no clamping) and
persist it. -/
def goToSlide (s : PptPageState) (index : Nat) : PptPageState :=
  { s with currentSlide := index
           storage := { s.storage with currentSlide := some (toString index) } }

/-- `nextSlide` (lines 400-406): advance only when a deck exists and the
index is below `slides.length - 1` (for an empty deck the JS bound is `-1`
and the guard is false, matched here by truncated subtraction). -/
def nextSlide (s : PptPageState) : PptPageState :=
  match s.presentation with
  | some p =>
    if s.currentSlide < p.slides.length - 1 then
      { s with currentSlide := s.currentSlide + 1
               storage := { s.storage with
                            currentSlide := some (toString (s.currentSlide + 1)) } }
    else s
  | none => s

/-- `prevSlide` (lines 408-414): step back only when the index is positive. -/
def prevSlide (s : PptPageState) : PptPageState :=
  if s.currentSlide > 0 then
    { s with currentSlide := s.currentSlide - 1
             storage := { s.storage with
                          currentSlide := some (toString (s.currentSlide - 1)) } }
  else s

/-- The success path of `handleCreatePresentation` (lines 213-218): install
the new deck, reset to slide 0, persist both. -/
def createPresentationSuccess (s : PptPageState) (p : Presentation) :
    PptPageState :=
  { s with presentation := some p
           currentSlide := 0
           storage := { s.storage with
                        presentation := some (jsonStringify p)
                        currentSlide := some "0" } }

/-- The success path of `handleEditPresentation` (lines 229-253): a no-op
when the prompt is blank or no deck exists; otherwise the deck is replaced
wholesale and persisted, the prompt is cleared, and the slide index is left
untouched. -/
def editPresentationSuccess (s : PptPageState) (p : Presentation) :
    PptPageState :=
  if jsBlank s.editPrompt then s
  else
    match s.presentation with
    | none => s
    | some _ =>
      { s with presentation := some p
               editPrompt := ""
               storage := { s.storage with presentation := some (jsonStringify p) } }

/-- Typing into the edit box (`setEditPrompt`). -/
def setEditPrompt (s : PptPageState) (v : String) : PptPageState :=
  { s with editPrompt := v }

/-- The start-over button (lines 792-798) / `handleBackToCardSelection`
(lines 104-110): clear the deck, reset the index, remove both persisted
keys. -/
def startOver (s : PptPageState) : PptPageState :=
  { s with presentation := none
           currentSlide := 0
           storage := { s.storage with presentation := none, currentSlide := none } }

/-- The operations that can touch the deck or the slide index. -/
inductive PptOp where
  | next
  | prev
  | goTo (index : Nat)
  | createSuccess (p : Presentation)
  | editSuccess (p : Presentation)
  | setPrompt (v : String)
  | reset
deriving DecidableEq, Repr

/-- One step of the slide-deck state machine. -/
def pptStep (s : PptPageState) : PptOp → PptPageState
  | .next => nextSlide s
  | .prev => prevSlide s
  | .goTo i => goToSlide s i
  | .createSuccess p => createPresentationSuccess s p
  | .editSuccess p => editPresentationSuccess s p
  | .setPrompt v => setEditPrompt s v
  | .reset => startOver s

/-- The claimed invariant: whenever a nonempty deck is displayed, the current
index lies in `[0, N-1]` (an empty `slides` list renders nothing, so it
displays no slide). -/
def inRange (s : PptPageState) : Bool :=
  match s.presentation with
  | some p => p.slides.isEmpty || decide (s.currentSlide < p.slides.length)
  | none => true

/-- The enabling conditions under which the UI fires an operation: slide
indicators and thumbnails only call `goToSlide` with an index produced by
mapping over the displayed deck, and an edit response keeps the invariant
only when the new deck still covers the current index.  All other operations
are unconditionally safe. -/
def opSafe (s : PptPageState) : PptOp → Bool
  | .goTo i =>
    match s.presentation with
    | some p => p.slides.isEmpty || decide (i < p.slides.length)
    | none => true
  | .editSuccess p =>
    jsBlank s.editPrompt || s.presentation.isNone ||
      p.slides.isEmpty || decide (s.currentSlide < p.slides.length)
  | _ => true

/-! ## Concrete fixtures used by witnesses and counterexamples -/

/-- A form that passes validation (spec scenario: France / Paris / organic
bakery / full-time, terms accepted) with a typed business name that needs
trimming. -/
def fdValid : FormData :=
  { defaultFormData with
    businessName := "My Biz ", country := "France", city := "Paris",
    rawIdea := "organic bakery", timeCommitment := "full-time" }

/-- A nonblank country that is not in the known-country list. -/
def fdAtlantis : FormData :=
  { defaultFormData with
    country := "Atlantis", city := "Paris", rawIdea := "organic bakery",
    timeCommitment := "full-time" }

/-- A store in which every JSON-carrying loader key holds a blob that
`JSON.parse` rejects. -/
def corruptStorage : Storage :=
  { emptyStorage with
    formData := some (.corrupt "oops"), presentation := some (.corrupt "bad"),
    generatedVideo := some (.corrupt "nope") }

/-- A minimal concrete slide. -/
def slideOf (n : Nat) (t : String) : Slide :=
  { slide_number := n, title := t, subtitle := none, content := ["point"],
    speaker_notes := none, duration_seconds := some 30 }

/-- A two-slide deck. -/
def deckTwo : Presentation :=
  { presentation_title := "Pitch", generated_tagline := none,
    total_duration_minutes := 5,
    slides := [slideOf 1 "Intro", slideOf 2 "Market"] }

/-- A one-slide deck, as an edit response that shrinks the deck. -/
def deckOne : Presentation :=
  { presentation_title := "Pitch", generated_tagline := none,
    total_duration_minutes := 5, slides := [slideOf 1 "Intro"] }

/-- Viewing the two-slide deck at slide 0 with a pending edit instruction. -/
def pptViewing : PptPageState :=
  { presentation := some deckTwo, currentSlide := 0,
    editPrompt := "make it shorter", storage := emptyStorage }

/-- A valid form whose optional select-backed business type holds a
whitespace-only value. -/
def fdSpacedType : FormData := { fdValid with businessType := " " }

/-- An analysis response omitting both optional fields. -/
def aPlain : AnalysisData := { suggested_business_name := none, disclaimer := none }

/-- Spec-side reading of a duration rule: the typed string denotes a finite
number (per the `Number` conversion) lying within `[lo, hi]`. -/
def numberInRange (s : String) (lo hi : Int) : Bool :=
  match jsNumberOfString s with
  | some (.finite v) => v.geInt lo && v.leInt hi
  | _ => false

/-- Spec-side reading of the slide-count rule: the typed string denotes an
integer in `[5, 15]`. -/
def slideCountIntegerInRange (s : String) : Bool :=
  match jsNumberOfString s with
  | some (.finite v) => v.isInt && v.geInt 5 && v.leInt 15
  | _ => false

/-- The `num_slides` actually carried by an issued generate request, if
any. -/
def sentNumSlides : PptSubmitAction → Option (Option Int)
  | .sendRequest b => some b.num_slides
  | .noRequest _ => none

/-- A slide-count input that is numeric but not an integer. -/
def pptHalf : PptFormData := { numberOfSlides := "7.5", timeRequired := "5" }

/-- The spec scenario: a 3-second video request with a nonblank prompt. -/
def videoThree : VideoFormData := { timeRequired := "3", prompt := "product demo" }

/-! ## Theorems -/

/-- C1: for every form, `validateForm` is valid (empty error object) exactly
when all five rules hold (country nonblank and in the known-country list,
city nonblank, raw idea nonblank, time commitment nonempty, terms accepted);
each of the five error slots is populated exactly when its rule fails, and
every populated slot carries a nonempty human-readable message. -/
theorem C1_validate_required_fields (fd : FormData) (ta : Bool) :
    ((validateForm fd ta).isEmpty = true ↔
      (jsBlank fd.country = false ∧ countries.contains fd.country = true ∧
       jsBlank fd.city = false ∧ jsBlank fd.rawIdea = false ∧
       fd.timeCommitment ≠ "" ∧ ta = true)) ∧
    ((validateForm fd ta).country ≠ none ↔
      ¬(jsBlank fd.country = false ∧ countries.contains fd.country = true)) ∧
    ((validateForm fd ta).city ≠ none ↔ jsBlank fd.city = true) ∧
    ((validateForm fd ta).rawIdea ≠ none ↔ jsBlank fd.rawIdea = true) ∧
    ((validateForm fd ta).timeCommitment ≠ none ↔ fd.timeCommitment = "") ∧
    ((validateForm fd ta).terms ≠ none ↔ ta = false) ∧
    msgNonempty (validateForm fd ta).country = true ∧
    msgNonempty (validateForm fd ta).city = true ∧
    msgNonempty (validateForm fd ta).rawIdea = true ∧
    msgNonempty (validateForm fd ta).timeCommitment = true ∧
    msgNonempty (validateForm fd ta).terms = true := by
  simp only [validateForm, FormErrors.isEmpty, msgNonempty]
  split_ifs <;> simp_all

/-- C1 witness: a form missing city, raw idea, time commitment and terms gets
an error on each missing field, none on the satisfied country, and a fully
satisfied form validates. -/
theorem C1_validate_required_fields_witness :
    ((validateForm { defaultFormData with country := "France" } false).city ≠ none) ∧
    ((validateForm { defaultFormData with country := "France" } false).rawIdea ≠ none) ∧
    ((validateForm { defaultFormData with country := "France" } false).timeCommitment ≠ none) ∧
    ((validateForm { defaultFormData with country := "France" } false).terms ≠ none) ∧
    ((validateForm { defaultFormData with country := "France" } false).country = none) ∧
    (validateForm fdValid true).isEmpty = true := by
  have h := C1_validate_required_fields { defaultFormData with country := "France" } false
  have h2 := C1_validate_required_fields fdValid true
  refine ⟨h.2.2.1.mpr (by decide), h.2.2.2.1.mpr (by decide),
          h.2.2.2.2.1.mpr (by decide), h.2.2.2.2.2.1.mpr (by decide), ?_, ?_⟩
  · have := h.2.1
    by_contra hc
    have := this.mp hc
    exact this (by decide)
  · exact h2.1.mpr (by decide)

/-- C4: a nonblank country that is not in the known-country list fails
validation with the country-specific dropdown message, which differs from the
empty-country required message. -/
theorem C4_unknown_country (fd : FormData) (ta : Bool)
    (h1 : jsBlank fd.country = false)
    (h2 : countries.contains fd.country = false) :
    (validateForm fd ta).country = some "Please select a country from the dropdown" ∧
    (validateForm fd ta).isEmpty = false ∧
    (validateForm fd ta).country ≠ some "Country is required" := by
  simp only [validateForm, FormErrors.isEmpty]
  simp_all

/-- C4 witness: the country "Atlantis" is nonblank and unknown, and draws the
dropdown message. -/
theorem C4_unknown_country_witness :
    jsBlank fdAtlantis.country = false ∧
    countries.contains fdAtlantis.country = false ∧
    (validateForm fdAtlantis true).country =
      some "Please select a country from the dropdown" ∧
    (validateForm fdAtlantis true).isEmpty = false := by
  have h := C4_unknown_country fdAtlantis true (by decide) (by decide)
  exact ⟨by decide, by decide, h.1, h.2.1⟩

/-- C9: persisting a field edit through `handleChange` and reconstructing the
form state through `loadSavedFormData` reproduces exactly the edited state,
for every field and value (this form state has no file-attachment field, so
the exclusion of attachments is vacuous here). -/
theorem C9_edit_roundtrip (fd : FormData) (st : Storage) (f : FormField)
    (v : String) :
    loadSavedFormData (handleChange fd st f v).2 = (handleChange fd st f v).1 := rfl

/-- C10: when a persisted value is absent or fails to parse as JSON, the
three state loaders return their built-in defaults (the default form, and
`null` for the deck and video artifacts) instead of raising. -/
theorem C10_corrupt_storage_defaults (st : Storage) :
    ((st.formData = none ∨ ∃ r, st.formData = some (JsonBlob.corrupt r)) →
      loadSavedFormData st = defaultFormData) ∧
    ((st.presentation = none ∨ ∃ r, st.presentation = some (JsonBlob.corrupt r)) →
      loadSavedPresentation st = none) ∧
    ((st.generatedVideo = none ∨ ∃ r, st.generatedVideo = some (JsonBlob.corrupt r)) →
      loadSavedVideo st = none) := by
  refine ⟨?_, ?_, ?_⟩ <;> rintro (h | ⟨r, h⟩) <;>
    simp [loadSavedFormData, loadSavedPresentation, loadSavedVideo, jsonParse, h]

/-- C10 witness: a store with a corrupt blob under each loader key yields the
defaults. -/
theorem C10_corrupt_storage_witness :
    loadSavedFormData corruptStorage = defaultFormData ∧
    loadSavedPresentation corruptStorage = none ∧
    loadSavedVideo corruptStorage = none := by
  have h := C10_corrupt_storage_defaults corruptStorage
  exact ⟨h.1 (Or.inr ⟨"oops", rfl⟩), h.2.1 (Or.inr ⟨"bad", rfl⟩),
         h.2.2 (Or.inr ⟨"nope", rfl⟩)⟩

/-- C2 (amended): `next` at the last slide and `prev` at slide 0 are no-ops,
and every operation fired the way the UI fires it (indicator and thumbnail
clicks pass an index of the displayed deck; an edit response keeps the
invariant only when the new deck still covers the current index) preserves
the index range invariant.  The original claim also covered an edit response
with fewer slides than the current index, which the code does not reclamp --
see the counterexample. -/
theorem C2_slide_navigation (s : PptPageState) (op : PptOp) :
    (inRange s = true → opSafe s op = true → inRange (pptStep s op) = true) ∧
    (∀ p : Presentation, s.presentation = some p →
      s.currentSlide = p.slides.length - 1 → pptStep s .next = s) ∧
    (s.currentSlide = 0 → pptStep s .prev = s) := by
  refine ⟨?_, ?_, ?_⟩
  · intro hinv hsafe
    cases op with
    | next =>
      simp only [pptStep, nextSlide]
      cases hp : s.presentation with
      | none => simp [inRange, hp]
      | some p =>
        by_cases hlt : s.currentSlide < p.slides.length - 1
        · simp only [hlt, if_pos]
          simp [inRange]
          omega
        · simp only [hlt, if_neg, ite_false]
          simpa [inRange, hp] using hinv
    | prev =>
      simp only [pptStep, prevSlide]
      by_cases hpos : s.currentSlide > 0
      · simp only [hpos, if_pos]
        cases hp : s.presentation with
        | none => simp [inRange]
        | some p =>
          simp only [inRange, hp] at hinv ⊢
          rcases Bool.or_eq_true _ _ |>.mp hinv with h | h
          · simp [h]
          · simp only [decide_eq_true_eq] at h
            simp only [Bool.or_eq_true, decide_eq_true_eq]
            right; omega
      · simp only [hpos, ite_false]
        exact hinv
    | goTo i =>
      simp only [pptStep, goToSlide]
      cases hp : s.presentation with
      | none => simp [inRange]
      | some p =>
        simp only [opSafe, hp] at hsafe
        simpa [inRange, hp] using hsafe
    | createSuccess p =>
      simp only [pptStep, createPresentationSuccess, inRange]
      cases p.slides <;> simp
    | editSuccess p =>
      simp only [pptStep, editPresentationSuccess]
      by_cases hb : jsBlank s.editPrompt
      · simp [hb, hinv]
      · cases hp : s.presentation with
        | none => simpa [hb, hp] using hinv
        | some q =>
          simp only [hb, if_neg, Bool.not_eq_true, hp]
          simp only [opSafe, hb, hp, Option.isNone_some, Bool.false_or] at hsafe
          simp only [inRange]
          simpa using hsafe
    | setPrompt v => simpa [pptStep, setEditPrompt, inRange] using hinv
    | reset => simp [pptStep, startOver, inRange]
  · intro p hp hlast
    simp [pptStep, nextSlide, hp, hlast]
  · intro h0
    simp [pptStep, prevSlide, h0]

/-- C2 witness: on the two-slide deck, advancing from slide 0 keeps the index
in range, `next` at the last slide is a no-op, and `prev` at slide 0 is a
no-op. -/
theorem C2_slide_navigation_witness :
    inRange (pptStep pptViewing PptOp.next) = true ∧
    pptStep (pptStep pptViewing PptOp.next) PptOp.next =
      pptStep pptViewing PptOp.next ∧
    pptStep pptViewing PptOp.prev = pptViewing := by
  refine ⟨(C2_slide_navigation pptViewing PptOp.next).1 (by decide) (by decide),
          (C2_slide_navigation (pptStep pptViewing PptOp.next) PptOp.next).2.1
            deckTwo (by decide) (by decide),
          (C2_slide_navigation pptViewing PptOp.prev).2.2 (by decide)⟩

/-- C2 counterexample: viewing slide index 1 of a two-slide deck, an edit
response carrying a one-slide deck leaves the index at 1, outside `[0, 0]`
for the deck then displayed -- the claimed invariant fails. -/
theorem C2_slide_navigation_counterexample :
    (pptStep pptViewing PptOp.next).currentSlide = 1 ∧
    deckOne.slides.length = 1 ∧
    (pptStep (pptStep pptViewing PptOp.next) (PptOp.editSuccess deckOne)).presentation
      = some deckOne ∧
    inRange (pptStep (pptStep pptViewing PptOp.next) (PptOp.editSuccess deckOne))
      = false := by
  decide

/-- The generic fallback message differs from the network-error sentinel and
from the empty string, whatever the status digits are. -/
theorem researchFailedMsg_ne (x : String) :
    ("Research failed (" ++ x ++ ")") ≠ "Failed to fetch" ∧
    ("Research failed (" ++ x ++ ")") ≠ "" := by
  constructor <;> intro h <;>
    · have hl := congrArg String.length h
      simp only [String.length_append] at hl
      have h1 : "Research failed (".length = 17 := rfl
      have h2 : ")".length = 1 := rfl
      have h3 : "Failed to fetch".length = 15 := rfl
      have h4 : "".length = 0 := rfl
      omega

/-- C3 (amended): on a non-2xx response the submit handler never navigates
and shows the `detail` string verbatim (arrays comma-joined) whenever that
string is nonempty and differs from the `Failed to fetch` sentinel; an absent
or empty-string `detail` falls back to the generic message carrying the HTTP
status, a `detail` stringifying to the empty string (such as an empty array)
falls back to the generic retry message, and a `detail` equal to the sentinel
is misclassified as a network failure and shown as the fixed server
unreachable message, which is also what a true network-level failure shows.
The original claim promised the `detail` text unconditionally -- see the
counterexample for the sentinel collision. -/
theorem C3_http_error_messages (fd : FormData) (ta : Bool) (status : Nat)
    (d : JsDetail) (hv : (validateForm fd ta).isEmpty = true) :
    (∀ a ctx, handleSubmit fd ta (.httpError status d) ≠ .navigated a ctx) ∧
    (∀ m, d = .str m → m ≠ "" → m ≠ "Failed to fetch" →
      handleSubmit fd ta (.httpError status d) = .errorShown m) ∧
    (∀ items, d = .list items → String.intercalate "," items ≠ "" →
      String.intercalate "," items ≠ "Failed to fetch" →
      handleSubmit fd ta (.httpError status d) =
        .errorShown (String.intercalate "," items)) ∧
    ((d = .absent ∨ d = .str "") →
      handleSubmit fd ta (.httpError status d) =
        .errorShown ("Research failed (" ++ toString status ++ ")")) ∧
    (∀ items, d = .list items → String.intercalate "," items = "" →
      handleSubmit fd ta (.httpError status d) =
        .errorShown "Research failed. Please try again.") ∧
    (d = .str "Failed to fetch" →
      handleSubmit fd ta (.httpError status d) = .errorShown serverUnreachableMsg) ∧
    (handleSubmit fd ta .networkFailure = .errorShown serverUnreachableMsg) := by
  have hs := (researchFailedMsg_ne (toString status)).1
  have hz := (researchFailedMsg_ne (toString status)).2
  refine ⟨?_, ?_, ?_, ?_, ?_, ?_, ?_⟩
  · intro a ctx
    simp [handleSubmit, hv]
  · rintro m rfl hne hnf
    simp [handleSubmit, hv, catchMessage, httpErrorMessage, JsDetail.truthy,
          JsDetail.toJsString, hne, hnf, jsOrDefault]
  · rintro items rfl hne hnf
    simp [handleSubmit, hv, catchMessage, httpErrorMessage, JsDetail.truthy,
          JsDetail.toJsString, hne, hnf, jsOrDefault]
  · rintro (rfl | rfl) <;>
      simp [handleSubmit, hv, catchMessage, httpErrorMessage, JsDetail.truthy,
            JsDetail.toJsString, jsOrDefault, hs, hz]
  · rintro items rfl hzi
    simp [handleSubmit, hv, catchMessage, httpErrorMessage, JsDetail.truthy,
          JsDetail.toJsString, hzi, jsOrDefault]
  · rintro rfl
    simp [handleSubmit, hv, catchMessage, httpErrorMessage, JsDetail.truthy,
          JsDetail.toJsString]
  · simp [handleSubmit, hv, catchMessage]

/-- C3 witness: a structured 500 shows its detail, a 422 with sub-errors
shows the joined string, a detail-less 503 shows the generic message with the
status, and a network failure shows the fixed unreachable message. -/
theorem C3_http_error_messages_witness :
    handleSubmit fdValid true (.httpError 500 (.str "rate limited")) =
      .errorShown "rate limited" ∧
    handleSubmit fdValid true
        (.httpError 422 (.list ["name is required", "idea too short"])) =
      .errorShown "name is required,idea too short" ∧
    handleSubmit fdValid true (.httpError 503 .absent) =
      .errorShown "Research failed (503)" ∧
    handleSubmit fdValid true .networkFailure = .errorShown serverUnreachableMsg := by
  have h1 := C3_http_error_messages fdValid true 500 (.str "rate limited") (by decide)
  have h2 := C3_http_error_messages fdValid true 422
    (.list ["name is required", "idea too short"]) (by decide)
  have h3 := C3_http_error_messages fdValid true 503 .absent (by decide)
  exact ⟨h1.2.1 "rate limited" rfl (by decide) (by decide),
         h2.2.2.1 ["name is required", "idea too short"] rfl (by decide) (by decide),
         h3.2.2.2.1 (Or.inl rfl),
         h3.2.2.2.2.2.2⟩

/-- C3 counterexample: a non-2xx response whose `detail` is the literal text
`Failed to fetch` is shown as the fixed server-unreachable message, not as
the detail text the claim promises. -/
theorem C3_http_error_messages_counterexample :
    handleSubmit fdValid true (.httpError 500 (.str "Failed to fetch")) =
      .errorShown serverUnreachableMsg ∧
    serverUnreachableMsg ≠ "Failed to fetch" := by
  constructor
  · decide
  · decide

/-- C5 counterexample: a valid form whose optional business type is a single
space has a trimmed-empty optional value, yet the request carries it as the
untrimmed space string instead of the claimed explicit absent value. -/
theorem C5_request_normalization_counterexample :
    (validateForm fdSpacedType true).isEmpty = true ∧
    jsTrim fdSpacedType.businessType = "" ∧
    (buildAnalyzeRequest fdSpacedType).business_type = some " " := by
  decide

/-- C5 (amended): the outgoing analyze body uses the trimmed typed business
name, or the literal `My Business` when it trims to empty; the trimmed
optional free-text fields (target audience, budget, problem) are sent as the
absent value exactly when their trimmed value is empty; the select-backed
optional fields (business type, time commitment, output tone, stage of idea,
time horizon) are sent untrimmed and are absent exactly when the raw value is
empty -- a whitespace-only select value is passed through, which is what the
counterexample exhibits; no optional field is ever sent as the empty
string. -/
theorem C5_request_normalization (fd : FormData) :
    (buildAnalyzeRequest fd).business_name =
      (if jsTrim fd.businessName = "" then "My Business" else jsTrim fd.businessName) ∧
    ((buildAnalyzeRequest fd).target_audience = none ↔ jsTrim fd.targetAudience = "") ∧
    (buildAnalyzeRequest fd).target_audience ≠ some "" ∧
    ((buildAnalyzeRequest fd).budget = none ↔ jsTrim fd.budget = "") ∧
    (buildAnalyzeRequest fd).budget ≠ some "" ∧
    ((buildAnalyzeRequest fd).problem = none ↔ jsTrim fd.problem = "") ∧
    (buildAnalyzeRequest fd).problem ≠ some "" ∧
    ((buildAnalyzeRequest fd).business_type = none ↔ fd.businessType = "") ∧
    (buildAnalyzeRequest fd).business_type ≠ some "" ∧
    ((buildAnalyzeRequest fd).time_commitment = none ↔ fd.timeCommitment = "") ∧
    (buildAnalyzeRequest fd).time_commitment ≠ some "" ∧
    ((buildAnalyzeRequest fd).output_tone = none ↔ fd.outputTone = "") ∧
    (buildAnalyzeRequest fd).output_tone ≠ some "" ∧
    ((buildAnalyzeRequest fd).stage_of_idea = none ↔ fd.stageOfIdea = "") ∧
    (buildAnalyzeRequest fd).stage_of_idea ≠ some "" ∧
    ((buildAnalyzeRequest fd).time_horizon = none ↔ fd.timeHorizon = "") ∧
    (buildAnalyzeRequest fd).time_horizon ≠ some "" := by
  refine ⟨?_, ?_, ?_, ?_, ?_, ?_, ?_, ?_, ?_, ?_, ?_, ?_, ?_, ?_, ?_, ?_, ?_⟩ <;>
    (simp only [buildAnalyzeRequest, jsOrDefault, jsOrNull]
     try (split_ifs <;> simp_all))

/-- C5 witness: the valid fixture form has its typed name trimmed, and its
empty optional fields sent as absent values. -/
theorem C5_request_normalization_witness :
    (buildAnalyzeRequest fdValid).business_name = "My Biz" ∧
    (buildAnalyzeRequest fdValid).budget = none ∧
    (buildAnalyzeRequest fdValid).business_type = none := by
  have h := C5_request_normalization fdValid
  exact ⟨h.1.trans (by decide), h.2.2.2.1.mpr (by decide),
         (h.2.2.2.2.2.2.2.1).mpr (by decide)⟩

/-- C6: on a successful analysis response the submit handler navigates
forward with the response and the constructed context as the payload, and the
context business name is the trimmed AI-suggested name when present and
nonblank, otherwise the trimmed originally typed name, or the default when
that is blank. -/
theorem C6_suggested_name (fd : FormData) (ta : Bool) (a : AnalysisData)
    (hv : (validateForm fd ta).isEmpty = true) :
    handleSubmit fd ta (.success a) = .navigated a (buildBusinessContext fd a) ∧
    (∀ sug, a.suggested_business_name = some sug → jsTrim sug ≠ "" →
      (buildBusinessContext fd a).business_name = jsTrim sug) ∧
    (a.suggested_business_name = none →
      (buildBusinessContext fd a).business_name =
        (if jsTrim fd.businessName = "" then "My Business" else jsTrim fd.businessName)) ∧
    (∀ sug, a.suggested_business_name = some sug → jsTrim sug = "" →
      (buildBusinessContext fd a).business_name =
        (if jsTrim fd.businessName = "" then "My Business" else jsTrim fd.businessName)) := by
  refine ⟨by simp [handleSubmit, hv], ?_, ?_, ?_⟩
  · rintro sug hs hne
    simp [buildBusinessContext, businessNameForPresentation, hs, hne, jsOrDefault]
  · intro hn
    simp [buildBusinessContext, businessNameForPresentation, hn, jsOrDefault]
  · rintro sug hs hz
    simp [buildBusinessContext, businessNameForPresentation, hs, hz, jsOrDefault]

/-- C6 witness: a response omitting `suggested_business_name` (and
`disclaimer`) navigates forward and falls back to the trimmed originally
typed name. -/
theorem C6_suggested_name_witness :
    handleSubmit fdValid true (.success aPlain) =
      .navigated aPlain (buildBusinessContext fdValid aPlain) ∧
    (buildBusinessContext fdValid aPlain).business_name = "My Biz" := by
  have h := C6_suggested_name fdValid true aPlain (by decide)
  exact ⟨h.1, (h.2.2.1 rfl).trans (by decide)⟩

/-- A failed lower-bound test means the value is strictly below the bound. -/
theorem DecValue.geInt_false {v : DecValue} {b : Int} (h : v.geInt b = false) :
    v.ltInt b = true := by
  simp only [DecValue.geInt, DecValue.ltInt, decide_eq_false_iff_not,
             decide_eq_true_eq, not_le] at h ⊢
  exact h

/-- A failed upper-bound test means the value is strictly above the bound. -/
theorem DecValue.leInt_false {v : DecValue} {b : Int} (h : v.leInt b = false) :
    v.gtInt b = true := by
  simp only [DecValue.leInt, DecValue.gtInt, decide_eq_false_iff_not,
             decide_eq_true_eq, not_le] at h ⊢
  exact h

/-- A string that is not blank has a nonempty residue after dropping leading
whitespace. -/
theorem jsBlank_false_not_ws (s : String) (hb : jsBlank s = false) :
    (dropLeadingWs s.toList).isEmpty = false := by
  by_contra hc
  have hc2 : (dropLeadingWs s.toList).isEmpty = true := by simpa using hc
  have hempty : dropLeadingWs s.toList = [] := by
    cases hd : dropLeadingWs s.toList with
    | nil => rfl
    | cons c cs => rw [hd] at hc2; simp at hc2
  have hall : ∀ c ∈ s.toList, jsWhitespace c :=
    List.dropWhile_eq_nil_iff.mp hempty
  have hrev : dropLeadingWs s.toList.reverse = [] := by
    rw [dropLeadingWs, List.dropWhile_eq_nil_iff]
    simpa using hall
  have : jsTrim s = "" := by
    rw [jsTrim, hrev]
    rfl
  rw [jsBlank, this] at hb
  simp at hb

/-- On a nonblank string the `Number` conversion and `parseFloat` agree
whenever the former is defined (the full-string parse is the prefix parse
followed by whitespace). -/
theorem numberOf_parseFloat (s : String) (hb : jsBlank s = false) (jn : JsNum)
    (h : jsNumberOfString s = some jn) : jsParseFloat s = some jn := by
  have hne := jsBlank_false_not_ws s hb
  rw [jsNumberOfString] at h
  rw [jsParseFloat]
  simp only [hne, Bool.false_eq_true, if_false] at h
  cases hp : parseNumPrefix (dropLeadingWs s.toList) with
  | none => rw [hp] at h; simp at h
  | some pr =>
    obtain ⟨v, rest⟩ := pr
    rw [hp] at h
    dsimp only at h
    split_ifs at h with hws
    simp only [Option.some.injEq] at h
    simp [h]

/-- C8: the video validator rejects, with a duration field error and no
network call, every input whose typed duration does not denote a finite
number in `[6, 10]`, and likewise rejects a blank prompt with a prompt field
error and no network call. -/
theorem C8_video_validation (ctx : EnrichedContext) (v : VideoFormData) :
    (numberInRange v.timeRequired 6 10 = false →
      (validateVideoForm v).timeRequired ≠ none ∧
      (handleGenerateVideo ctx v).isRequest = false) ∧
    (jsBlank v.prompt = true →
      (validateVideoForm v).prompt ≠ none ∧
      (handleGenerateVideo ctx v).isRequest = false) := by
  have herr : ∀ (hne : (validateVideoForm v).timeRequired ≠ none ∨
      (validateVideoForm v).prompt ≠ none),
      (handleGenerateVideo ctx v).isRequest = false := by
    intro hne
    rw [handleGenerateVideo]
    by_cases he : (validateVideoForm v).isEmpty
    · exfalso
      rw [VideoErrors.isEmpty, Bool.and_eq_true, Option.isNone_iff_eq_none,
          Option.isNone_iff_eq_none] at he
      rcases hne with hne | hne
      · exact hne he.1
      · exact hne he.2
    · simp [he, VideoSubmitAction.isRequest]
  constructor
  · intro hnr
    have hterr : (validateVideoForm v).timeRequired ≠ none := by
      rw [validateVideoForm]
      by_cases hb : jsBlank v.timeRequired
      · simp [hb]
      · simp only [hb, Bool.false_eq_true, if_false]
        have hbf : jsBlank v.timeRequired = false := by simpa using hb
        by_cases hn : jsIsNaN v.timeRequired
        · simp [hn]
        · have hnf : jsIsNaN v.timeRequired = false := by simpa using hn
          obtain ⟨jn, hj⟩ : ∃ jn, jsNumberOfString v.timeRequired = some jn := by
            rw [jsIsNaN] at hnf
            cases hj : jsNumberOfString v.timeRequired with
            | none => rw [hj] at hnf; simp at hnf
            | some jn => exact ⟨jn, rfl⟩
          have hpf := numberOf_parseFloat v.timeRequired hbf jn hj
          cases jn with
          | inf => simp [hnf, jsNumGt, hpf]
          | negInf => simp [hnf, jsNumLt, hpf]
          | finite dv =>
            rw [numberInRange, hj] at hnr
            dsimp only at hnr
            by_cases hge : dv.geInt 6
            · have hle : dv.leInt 10 = false := by simpa [hge] using hnr
              have hgt := DecValue.leInt_false hle
              simp [hpf, jsNumGt, hgt]
            · have hgef : dv.geInt 6 = false := by simpa using hge
              have hlt := DecValue.geInt_false hgef
              simp [hpf, jsNumLt, hlt]
    exact ⟨hterr, herr (Or.inl hterr)⟩
  · intro hbp
    have hperr : (validateVideoForm v).prompt ≠ none := by
      rw [validateVideoForm]
      simp [hbp]
    exact ⟨hperr, herr (Or.inr hperr)⟩

/-- C8 witness: the spec scenario duration 3 (outside `[6, 10]`) draws a
duration error and no network call, and a blank prompt blocks an otherwise
valid request. -/
theorem C8_video_validation_witness :
    numberInRange videoThree.timeRequired 6 10 = false ∧
    (validateVideoForm videoThree).timeRequired ≠ none ∧
    (handleGenerateVideo emptyContext videoThree).isRequest = false ∧
    (handleGenerateVideo emptyContext { timeRequired := "8", prompt := "" }).isRequest
      = false := by
  have h := C8_video_validation emptyContext videoThree
  have h2 := C8_video_validation emptyContext { timeRequired := "8", prompt := "" }
  exact ⟨by decide, (h.1 (by decide)).1, (h.1 (by decide)).2, (h2.2 (by decide)).2⟩

/-- C7 (amended): a slide-deck generation call is issued exactly when both
inputs are nonblank numeric strings whose `parseInt` slide count is within
`[5, 15]` and whose `parseFloat` duration is within `[3, 15]` (NaN
comparisons being false); each field error appears exactly when its condition
fails, and an issued request carries the `parseInt` images of both inputs.
The original claim required the typed slide count to be an integer, but a
fractional count such as 7.5 passes the gate truncated -- see the
counterexample. -/
theorem C7_generate_gate (ctx : EnrichedContext) (d : PptFormData) :
    ((handleCreatePresentation ctx d).isRequest = true ↔
      (jsBlank d.numberOfSlides = false ∧ jsIsNaN d.numberOfSlides = false ∧
       jsIntLt (jsParseInt d.numberOfSlides) 5 = false ∧
       jsIntGt (jsParseInt d.numberOfSlides) 15 = false ∧
       jsBlank d.timeRequired = false ∧ jsIsNaN d.timeRequired = false ∧
       jsNumLt (jsParseFloat d.timeRequired) 3 = false ∧
       jsNumGt (jsParseFloat d.timeRequired) 15 = false)) ∧
    ((validatePptForm d).numberOfSlides ≠ none ↔
      ¬(jsBlank d.numberOfSlides = false ∧ jsIsNaN d.numberOfSlides = false ∧
        jsIntLt (jsParseInt d.numberOfSlides) 5 = false ∧
        jsIntGt (jsParseInt d.numberOfSlides) 15 = false)) ∧
    ((validatePptForm d).timeRequired ≠ none ↔
      ¬(jsBlank d.timeRequired = false ∧ jsIsNaN d.timeRequired = false ∧
        jsNumLt (jsParseFloat d.timeRequired) 3 = false ∧
        jsNumGt (jsParseFloat d.timeRequired) 15 = false)) ∧
    (∀ b, handleCreatePresentation ctx d = .sendRequest b →
      b.num_slides = jsParseInt d.numberOfSlides ∧
      b.duration_minutes = jsParseInt d.timeRequired) := by
  simp only [handleCreatePresentation, validatePptForm, PptErrors.isEmpty,
             PptSubmitAction.isRequest]
  split_ifs with h1 h2 h3 <;>
    simp_all [Bool.or_eq_true, Bool.and_eq_true, Option.isNone_iff_eq_none] <;>
    (try (simp only [Bool.eq_false_iff] at *; tauto))

/-- C7 counterexample: the slide count 7.5 does not denote an integer in
`[5, 15]`, yet validation passes both fields and a network call is issued
carrying the truncated count 7. -/
theorem C7_generate_gate_counterexample :
    slideCountIntegerInRange pptHalf.numberOfSlides = false ∧
    (validatePptForm pptHalf).numberOfSlides = none ∧
    (validatePptForm pptHalf).timeRequired = none ∧
    (handleCreatePresentation emptyContext pptHalf).isRequest = true ∧
    sentNumSlides (handleCreatePresentation emptyContext pptHalf) = some (some 7) := by
  decide

/-- C7 witness: the default 10-slide 5-minute form generates, a 16-slide
request draws a field error and no call, and a 2-minute duration draws a
field error. -/
theorem C7_generate_gate_witness :
    (handleCreatePresentation emptyContext defaultPptFormData).isRequest = true ∧
    (validatePptForm { numberOfSlides := "16", timeRequired := "5" }).numberOfSlides
      ≠ none ∧
    (handleCreatePresentation emptyContext
      { numberOfSlides := "16", timeRequired := "5" }).isRequest = false ∧
    (validatePptForm { numberOfSlides := "10", timeRequired := "2" }).timeRequired
      ≠ none := by
  have h1 := C7_generate_gate emptyContext defaultPptFormData
  have h2 := C7_generate_gate emptyContext { numberOfSlides := "16", timeRequired := "5" }
  have h3 := C7_generate_gate emptyContext { numberOfSlides := "10", timeRequired := "2" }
  refine ⟨h1.1.mpr (by decide), h2.2.1.mpr (by decide), ?_, h3.2.2.1.mpr (by decide)⟩
  cases hreq : (handleCreatePresentation emptyContext
      { numberOfSlides := "16", timeRequired := "5" }).isRequest with
  | false => rfl
  | true => exact absurd (h2.1.mp hreq) (by decide)

end Raw2Ready
